import Mathlib

/-!
Verification of the paperless-ai document-analysis and RAG services.

This file gives a shallow embedding of `src/services/azureService.js`
(the `AzureOpenAIService` and `OllamaService` classes) and
`src/services/ragService.js` (the `RagService` class), together with
theorems settling the behavioural claims about them.

Strings are modelled as Lean `String` (a list of characters); JavaScript
`JSON.parse` is modelled by an executable recursive-descent parser over
a JSON value type (numeric literals are modelled as integers, which is
sufficient for every input considered here); the host regular-expression
operations used by the source are modelled by equivalent character
scanners.  External collaborators (the document repository, the wire
transports, the restriction-prompt processor) are modelled as explicit
environment parameters carrying their outcomes.

Note: every brace and apostrophe occurring inside a string literal is
written with a hexadecimal escape.
-/

/-- JSON values, as produced by JavaScript `JSON.parse`.  Numeric literals
are modelled as integers, which covers every input considered in this
development. -/
inductive JsonValue where
  | null
  | bool (b : Bool)
  | num (n : Int)
  | str (s : String)
  | arr (elems : List JsonValue)
  | obj (fields : List (String × JsonValue))

/-- JSON whitespace characters (space, newline, tab, carriage return). -/
def isJsonWs (c : Char) : Bool :=
  [' ', '\n', '\t', '\r'].contains c

/-- Characters matched by the regular-expression class `[a-zA-Z0-9_]`. -/
def isWordChar (c : Char) : Bool :=
  c.isAlphanum || c == '_'

/-- Parse the body of a JSON string literal (the opening quote already
consumed), returning the decoded characters and the rest of the input.
Handles the standard single-character escapes; a raw control character or
an unsupported escape fails, as in strict JSON. -/
def parseJsonStringBody : List Char → Option (List Char × List Char)
  | [] => none
  | '"' :: rest => some ([], rest)
  | '\\' :: c :: rest =>
    match
      List.lookup c
        [('"', '"'), ('\\', '\\'), ('/', '/'), ('n', '\n'), ('t', '\t'),
         ('r', '\r'), ('b', Char.ofNat 8), ('f', Char.ofNat 12)] with
    | some ec =>
      match parseJsonStringBody rest with
      | some (cs, r) => some (ec :: cs, r)
      | none => none
    | none => none
  | '\\' :: [] => none
  | c :: rest =>
    if c.toNat < 32 then none
    else
      match parseJsonStringBody rest with
      | some (cs, r) => some (c :: cs, r)
      | none => none

/-- Parse a JSON integer literal (optional minus sign, one or more digits). -/
def parseJsonNumber (l : List Char) : Option (Int × List Char) :=
  let (neg, l1) : Bool × List Char :=
    match l with
    | '-' :: r => (true, r)
    | _ => (false, l)
  let digits := l1.takeWhile Char.isDigit
  if digits.isEmpty then none
  else
    let v : Nat := digits.foldl (fun a c => a * 10 + (c.toNat - 48)) 0
    some (if neg then -(v : Int) else (v : Int), l1.drop digits.length)

mutual

/-- Parse a JSON value.  `fuel` strictly decreases on every recursive
call; `input length + 2` is always sufficient. -/
def parseJsonValue : Nat → List Char → Option (JsonValue × List Char)
  | 0, _ => none
  | fuel + 1, l =>
    match l.dropWhile isJsonWs with
    | '\x7b' :: rest =>
      match parseJsonFields fuel rest with
      | some (fs, r) => some (.obj fs, r)
      | none => none
    | '[' :: rest =>
      match parseJsonElems fuel rest with
      | some (es, r) => some (.arr es, r)
      | none => none
    | '"' :: rest =>
      match parseJsonStringBody rest with
      | some (cs, r) => some (.str (String.mk cs), r)
      | none => none
    | l' =>
      if "null".data.isPrefixOf l' then some (.null, l'.drop 4)
      else if "true".data.isPrefixOf l' then some (.bool true, l'.drop 4)
      else if "false".data.isPrefixOf l' then some (.bool false, l'.drop 5)
      else
        match parseJsonNumber l' with
        | some (n, r) => some (.num n, r)
        | none => none

/-- Parse the fields of a JSON object (the opening brace already
consumed), including the closing brace. -/
def parseJsonFields : Nat → List Char → Option (List (String × JsonValue) × List Char)
  | 0, _ => none
  | fuel + 1, l =>
    match l.dropWhile isJsonWs with
    | '\x7d' :: r => some ([], r)
    | '"' :: rest =>
      match parseJsonStringBody rest with
      | some (key, r1) =>
        match r1.dropWhile isJsonWs with
        | ':' :: r2 =>
          match parseJsonValue fuel r2 with
          | some (v, r3) =>
            match parseJsonFieldsTail fuel r3 with
            | some (fs, r4) => some ((String.mk key, v) :: fs, r4)
            | none => none
          | none => none
        | _ => none
      | none => none
    | _ => none

/-- Parse the continuation of a JSON object after one field: either the
closing brace or a comma followed by further fields.  A trailing comma
fails, as in strict JSON. -/
def parseJsonFieldsTail : Nat → List Char → Option (List (String × JsonValue) × List Char)
  | 0, _ => none
  | fuel + 1, l =>
    match l.dropWhile isJsonWs with
    | '\x7d' :: r => some ([], r)
    | ',' :: r =>
      match r.dropWhile isJsonWs with
      | '"' :: rest =>
        match parseJsonStringBody rest with
        | some (key, r1) =>
          match r1.dropWhile isJsonWs with
          | ':' :: r2 =>
            match parseJsonValue fuel r2 with
            | some (v, r3) =>
              match parseJsonFieldsTail fuel r3 with
              | some (fs, r4) => some ((String.mk key, v) :: fs, r4)
              | none => none
            | none => none
          | _ => none
        | none => none
      | _ => none
    | _ => none

/-- Parse the elements of a JSON array (the opening bracket already
consumed), including the closing bracket. -/
def parseJsonElems : Nat → List Char → Option (List JsonValue × List Char)
  | 0, _ => none
  | fuel + 1, l =>
    match l.dropWhile isJsonWs with
    | ']' :: r => some ([], r)
    | l' =>
      match parseJsonValue fuel l' with
      | some (v, r1) =>
        match parseJsonElemsTail fuel r1 with
        | some (es, r2) => some (v :: es, r2)
        | none => none
      | none => none

/-- Parse the continuation of a JSON array after one element.  A trailing
comma fails, as in strict JSON. -/
def parseJsonElemsTail : Nat → List Char → Option (List JsonValue × List Char)
  | 0, _ => none
  | fuel + 1, l =>
    match l.dropWhile isJsonWs with
    | ']' :: r => some ([], r)
    | ',' :: r =>
      match r.dropWhile isJsonWs with
      | ']' :: _ => none
      | r' =>
        match parseJsonValue fuel r' with
        | some (v, r1) =>
          match parseJsonElemsTail fuel r1 with
          | some (es, r2) => some (v :: es, r2)
          | none => none
        | none => none
    | _ => none

end

/-- Model of JavaScript `JSON.parse`: parse one value and require that
only whitespace remains; any syntax error yields `none` (the JS
exception). -/
def jsonParse (s : String) : Option JsonValue :=
  match parseJsonValue (s.length + 2) s.data with
  | some (v, rest) => if (rest.dropWhile isJsonWs).isEmpty then some v else none
  | none => none

/-- JavaScript truthiness of a JSON value. -/
def jsTruthy : JsonValue → Bool
  | .null => false
  | .bool b => b
  | .num n => n != 0
  | .str s => s != ""
  | .arr _ => true
  | .obj _ => true

/-- Property access on a parsed JSON value: for an object, the last
binding of the key wins (as for duplicate keys in `JSON.parse`); any
other value has no own properties (`undefined`, modelled as `none`). -/
def getField (v : JsonValue) (k : String) : Option JsonValue :=
  match v with
  | .obj fs => ((fs.filter (fun p => p.1 == k)).getLast?).map (fun p => p.2)
  | _ => none

/-- JavaScript `x || null` applied to a possibly-undefined property
value: a defined truthy value passes through, everything else becomes
`null`. -/
def jsOrNull (o : Option JsonValue) : JsonValue :=
  match o with
  | some v => if jsTruthy v then v else .null
  | none => .null

example : jsonParse "\x7b\"tags\": [\"A\"], \"correspondent\": \"X\"\x7d" =
    some (.obj [("tags", .arr [.str "A"]), ("correspondent", .str "X")]) := by rfl

example : jsonParse "\x7btags: [\"A\"], correspondent: \"X\",\x7d" = none := by rfl

example : jsonParse "\x7b\"a\": -12, \"b\": null\x7d" =
    some (.obj [("a", .num (-12)), ("b", .null)]) := by rfl

/-- JavaScript `s.substring(0, n)` on a character-modelled string. -/
def substringTo (s : String) (n : Nat) : String := String.mk (s.data.take n)

/-- JavaScript `String.prototype.trim`. -/
def jsTrim (s : String) : String :=
  String.mk (((s.data.dropWhile isJsonWs).reverse.dropWhile isJsonWs).reverse)

/-- Escape one character as inside a JSON string literal (the escapes
relevant to the inputs considered here). -/
def jsonEscapeChar (c : Char) : List Char :=
  if c == '"' then ['\\', '"']
  else if c == '\\' then ['\\', '\\']
  else if c == '\n' then ['\\', 'n']
  else if c == '\t' then ['\\', 't']
  else if c == '\r' then ['\\', 'r']
  else [c]

/-- JavaScript `JSON.stringify` applied to a string value. -/
def jsonStringifyString (s : String) : String :=
  String.mk ('"' :: ((s.data.map jsonEscapeChar).flatten ++ ['"']))

namespace ServiceUtils

/-- Modelled from the spec: `serviceUtils.calculateTokens` is required by
`azureService.js` but its file is not under `src/`.  Spec §4.1: token
estimation for arbitrary text by a fixed character-to-token ratio (length
divided by four, rounded up); the structured-output backend's
tokenizer-accurate estimator is abstracted by the same ratio estimator. -/
def calculateTokens (text : String) : Nat := (text.length + 3) / 4

/-- Modelled from the spec: `serviceUtils.truncateToTokenLimit` is
required by `azureService.js` but its file is not under `src/`.  Spec
§4.1: `truncate(text, availableTokens)` returns a prefix of `text` whose
estimated token count is at most `availableTokens`, is idempotent and
deterministic.  With the ratio estimator this is realised by keeping at
most four characters per available token; the callers may pass a
non-positive limit, in which case the prefix kept is empty. -/
def truncateToTokenLimit (text : String) (limit : Int) : String :=
  if (calculateTokens text : Int) > limit then substringTo text (4 * limit).toNat
  else text

end ServiceUtils

namespace OllamaService

/-- `OllamaService._truncateContent`: cap the content at
`CONTENT_MAX_LENGTH` characters when that environment variable is set
(modelled as an `Option Nat`), otherwise return it unchanged. -/
def truncateContent (contentMaxLength : Option Nat) (content : String) : String :=
  match contentMaxLength with
  | some m => substringTo content m
  | none => content

/-- `OllamaService._validateAndTruncateExternalApiData` on the already
serialised data string (the source stringifies object inputs first and
returns `null` for absent data; both callers guard for absence): estimate
`ceil(length / 4)` tokens and truncate to `maxTokens * 4` characters when
the estimate exceeds `maxTokens`. -/
def validateAndTruncateExternalApiData (dataString : String) (maxTokens : Nat) : String :=
  if (dataString.length + 3) / 4 > maxTokens then substringTo dataString (maxTokens * 4)
  else dataString

/-- `OllamaService._calculatePromptTokenCount`: `Math.ceil(length / 4)`. -/
def calculatePromptTokenCount (prompt : String) : Nat := (prompt.length + 3) / 4

/-- `OllamaService._calculateNumCtx`: the prompt estimate plus the
expected response allowance, capped at `config.tokenLimit`. -/
def calculateNumCtx (promptTokenCount expectedResponseTokens tokenLimit : Nat) : Nat :=
  min (promptTokenCount + expectedResponseTokens) tokenLimit

/-- Index of the last occurrence of `c` in the list, if any. -/
def lastIdxOf (c : Char) : List Char → Option Nat
  | [] => none
  | x :: xs =>
    match lastIdxOf c xs with
    | some k => some (k + 1)
    | none => if x == c then some 0 else none

/-- The span matched by the regular expression used in
`OllamaService._parseResponse` (`match` against `braces around any
characters`, with a greedy body): the match, when it exists, runs from
the first opening brace to the last closing brace after it. -/
def extractJsonSpan : List Char → Option (List Char)
  | [] => none
  | c :: rest =>
    if c == '\x7b' then
      match lastIdxOf '\x7d' rest with
      | some k => some ('\x7b' :: rest.take (k + 1))
      | none => none
    else extractJsonSpan rest

/-- Scanner for the global replacement of a comma (followed by optional
whitespace) directly before `closeCh`, as performed by the two
trailing-comma regular expressions in `OllamaService._sanitizeJsonString`;
scanning resumes after each replacement, matching the semantics of a
global regex replace. -/
def stripTrailingCommas (closeCh : Char) : Nat → List Char → List Char
  | 0, l => l
  | fuel + 1, l =>
    match l with
    | [] => []
    | ',' :: rest =>
      match rest.dropWhile isJsonWs with
      | c :: r =>
        if c == closeCh then closeCh :: stripTrailingCommas closeCh fuel r
        else ',' :: stripTrailingCommas closeCh fuel rest
      | [] => ',' :: stripTrailingCommas closeCh fuel rest
    | c :: rest => c :: stripTrailingCommas closeCh fuel rest

/-- Scanner for the global property-name-quoting replacement in
`OllamaService._sanitizeJsonString`: an optional quote, a nonempty run of
word characters, an optional quote and optional whitespace before a
colon are rewritten to the double-quoted word followed by the colon. -/
def quotePropertyNames : Nat → List Char → List Char
  | 0, l => l
  | fuel + 1, l =>
    match l with
    | [] => []
    | c :: rest =>
      let attempt : Option (List Char × List Char) :=
        let start := if c == '"' || c == '\x27' then rest else l
        let word := start.takeWhile isWordChar
        if word.isEmpty then none
        else
          let after1 := start.drop word.length
          let after2 :=
            match after1 with
            | q :: r => if q == '"' || q == '\x27' then r else after1
            | [] => after1
          match after2.dropWhile isJsonWs with
          | ':' :: r => some (word, r)
          | _ => none
      match attempt with
      | some (word, r) => '"' :: (word ++ '"' :: ':' :: quotePropertyNames fuel r)
      | none => c :: quotePropertyNames fuel rest

/-- `OllamaService._sanitizeJsonString`: strip trailing commas before a
closing brace, then before a closing bracket, then force-quote bare
property names (in the order of the source's three chained replaces). -/
def sanitizeJsonString (jsonStr : String) : String :=
  let s1 := stripTrailingCommas '\x7d' (jsonStr.length + 1) jsonStr.data
  let s2 := stripTrailingCommas ']' (s1.length + 1) s1
  String.mk (quotePropertyNames (s2.length + 1) s2)

/-- The canonical analysis document record assembled by `OllamaService`
from a parsed response: `tags` kept only when an array, every other field
passed through `value or null`; `none` marks a field the source object
literal omits entirely. -/
structure ParsedDocument where
  tags : List JsonValue
  correspondent : Option JsonValue
  title : Option JsonValue
  document_date : Option JsonValue
  document_type : Option JsonValue
  language : Option JsonValue
  custom_fields : Option JsonValue

/-- The `tags` extraction `Array.isArray(x.tags) ? x.tags : []`. -/
def tagsOf (v : JsonValue) : List JsonValue :=
  match getField v "tags" with
  | some (.arr xs) => xs
  | _ => []

/-- The full field extraction used on a directly parsed response (both in
`_parseResponse`'s first parse attempt and in `_processOllamaResponse`'s
structured path, which build identical object literals). -/
def documentFromJson (v : JsonValue) : ParsedDocument :=
  { tags := tagsOf v
    correspondent := some (jsOrNull (getField v "correspondent"))
    title := some (jsOrNull (getField v "title"))
    document_date := some (jsOrNull (getField v "document_date"))
    document_type := some (jsOrNull (getField v "document_type"))
    language := some (jsOrNull (getField v "language"))
    custom_fields := some (jsOrNull (getField v "custom_fields")) }

/-- The field extraction used after sanitisation in `_parseResponse`,
whose object literal omits `document_type` and `custom_fields`. -/
def documentFromSanitizedJson (v : JsonValue) : ParsedDocument :=
  { tags := tagsOf v
    correspondent := some (jsOrNull (getField v "correspondent"))
    title := some (jsOrNull (getField v "title"))
    document_date := some (jsOrNull (getField v "document_date"))
    document_type := none
    language := some (jsOrNull (getField v "language"))
    custom_fields := none }

/-- The canonical empty result `tags empty, correspondent null`. -/
def emptyDocument : ParsedDocument :=
  { tags := []
    correspondent := some .null
    title := none
    document_date := none
    document_type := none
    language := none
    custom_fields := none }

/-- `OllamaService._parseResponse`: extract the greedy brace span, try a
direct parse, on failure sanitise once and re-parse once, and fall back
to the canonical empty result (the surrounding `try` also maps any
internal exception to the same empty result). -/
def parseResponse (response : String) : ParsedDocument :=
  match extractJsonSpan response.data with
  | none => emptyDocument
  | some span =>
    let jsonStr := String.mk span
    match jsonParse jsonStr with
    | some result => documentFromJson result
    | none =>
      match jsonParse (sanitizeJsonString jsonStr) with
      | some result => documentFromSanitizedJson result
      | none => emptyDocument

end OllamaService

/-- Helper for the balanced-span reading of the spec: scan forward
keeping the brace depth, returning the consumed characters when the
depth first returns to zero. -/
def scanBalanced : List Char → Nat → List Char → Option (List Char)
  | [], _, _ => none
  | c :: rest, depth, acc =>
    if c == '\x7b' then scanBalanced rest (depth + 1) (c :: acc)
    else if c == '\x7d' then
      match depth with
      | 0 => none
      | 1 => some ((c :: acc).reverse)
      | d + 2 => scanBalanced rest (d + 1) (c :: acc)
    else scanBalanced rest depth (c :: acc)

/-- Modelled from the spec's words (§4.3, free-text path): the first
balanced brace span of the input, used only to compare the specified
extraction against the source's greedy regular expression. -/
def firstBalancedSpan : List Char → Option (List Char)
  | [] => none
  | c :: rest =>
    if c == '\x7b' then
      match scanBalanced rest 1 [c] with
      | some s => some s
      | none => firstBalancedSpan rest
    else firstBalancedSpan rest

/-- Scanner for the global removal of a code-fence marker (with an
optional following newline), as performed by the two fence-stripping
regular expressions in the Azure response handling. -/
def stripMarkerAll (pat : List Char) : Nat → List Char → List Char
  | 0, l => l
  | fuel + 1, l =>
    match l with
    | [] => []
    | c :: rest =>
      if pat.isPrefixOf l then
        match l.drop pat.length with
        | '\n' :: r' => stripMarkerAll pat fuel r'
        | r => stripMarkerAll pat fuel r
      else c :: stripMarkerAll pat fuel rest

/-- The fence stripping
`replace json fences globally, replace bare fences globally, trim`
applied to the model output in both Azure analysis paths. -/
def stripCodeFences (s : String) : String :=
  let l1 := stripMarkerAll "```json".data (s.length + 1) s.data
  let l2 := stripMarkerAll "```".data (l1.length + 1) l1
  jsTrim (String.mk l2)

example :
    OllamaService.parseResponse
      "```json\n\x7btags: [\"A\"], correspondent: \"X\",\x7d\n```" =
    { tags := [.str "A"]
      correspondent := some (.str "X")
      title := some .null
      document_date := some .null
      document_type := none
      language := some .null
      custom_fields := none } := by rfl

example : OllamaService.parseResponse "no json here" = OllamaService.emptyDocument := by rfl

example : stripCodeFences "```json\n\x7b\"a\": 1\x7d\n```  " = "\x7b\"a\": 1\x7d" := by rfl

/-- The token-usage metrics record of an analysis result. -/
structure UsageMetrics where
  promptTokens : Int
  completionTokens : Int
  totalTokens : Int

/-- The record resolved by every `checkStatus` variant: a status string,
an optional model name, and an optional error message (only the shadowed
first Azure definition populates the message). -/
structure StatusResult where
  status : String
  model : Option String
  err : Option String

namespace AzureOpenAIService

/-- The usage block of an Azure chat-completion reply. -/
structure UsageBlock where
  prompt_tokens : Int
  completion_tokens : Int
  total_tokens : Int

/-- An Azure chat-completion reply as far as the source inspects it:
`choices[0].message.content` when defined, and the `usage` block when
defined. -/
structure WireReply where
  content : Option String
  usage : Option UsageBlock

/-- The configuration read by the Azure analysis paths:
`Number(config.tokenLimit)` and `Number(config.responseTokens)`. -/
structure Config where
  tokenLimit : Int
  responseTokens : Int

/-- The per-request environment of an Azure analysis call: whether the
client is initialised, the outcome of the thumbnail-caching I/O, the
prompt-overhead estimate produced by `calculateTotalPromptTokens`
(`serviceUtils`, not under `src/`) on the assembled system prompt, and
the wire call as a function of the user-message content actually sent. -/
structure Env where
  clientOk : Bool
  thumbnail : Except String Unit
  totalPromptTokens : Int
  wire : String → Except String WireReply

/-- The analysis result record; `truncated := none` models the error
object literal, which has no `truncated` key. -/
structure AnalysisResult where
  document : JsonValue
  metrics : Option UsageMetrics
  truncated : Option Bool
  error : Option String

/-- The failure document `tags empty, correspondent null` returned by the
catch-all of both Azure analysis paths. -/
def emptyDocumentJson : JsonValue := .obj [("tags", .arr []), ("correspondent", .null)]

/-- The record returned by the catch-all of both Azure analysis paths. -/
def errorResult (msg : String) : AnalysisResult :=
  { document := emptyDocumentJson, metrics := none, truncated := none, error := some msg }

/-- The response-shape validation
`parsedResponse truthy, tags an array, correspondent a string`. -/
def responseShapeValid (v : JsonValue) : Bool :=
  jsTruthy v &&
    (match getField v "tags" with
     | some (.arr _) => true
     | _ => false) &&
    (match getField v "correspondent" with
     | some (.str _) => true
     | _ => false)

/-- The reply handling shared verbatim by `analyzeDocument` and
`analyzePlayground` (duplicated in the source): require a truthy message
content, read the usage block (an absent block raises a `TypeError` at
the usage logging, surfaced through the catch-all), strip code fences,
parse, validate the shape, and assemble the success record. -/
def handleReply (content truncatedContent : String) (reply : WireReply) : AnalysisResult :=
  match reply.content with
  | none => errorResult "Invalid API response structure"
  | some raw =>
    if raw == "" then errorResult "Invalid API response structure"
    else
      match reply.usage with
      | none => errorResult "Cannot read properties of undefined (reading total_tokens)"
      | some usage =>
        match jsonParse (stripCodeFences raw) with
        | none => errorResult "Invalid JSON response from API"
        | some parsed =>
          if responseShapeValid parsed then
            { document := parsed
              metrics := some ⟨usage.prompt_tokens, usage.completion_tokens, usage.total_tokens⟩
              truncated := some (truncatedContent.length < content.length)
              error := none }
          else errorResult "Invalid response structure: missing tags array or correspondent string"

/-- A run of an Azure analysis call together with the user-message
content it transmitted (`none` when the wire call was never reached). -/
structure Trace where
  sent : Option String
  result : AnalysisResult

/-- `AzureOpenAIService.analyzeDocument`, observed at the wire boundary:
client check, thumbnail caching, token-budget computation with the
`availableTokens <= 0` abort, content truncation, wire call and reply
handling; every internal failure is mapped by the catch-all to
`errorResult`. -/
def analyzeDocument (cfg : Config) (env : Env) (content : String) : Trace :=
  if !env.clientOk then ⟨none, errorResult "AzureOpenAI client not initialized"⟩
  else
    match env.thumbnail with
    | .error m => ⟨none, errorResult m⟩
    | .ok _ =>
      let maxTokens := cfg.tokenLimit
      let reservedTokens := env.totalPromptTokens + cfg.responseTokens
      let availableTokens := maxTokens - reservedTokens
      if availableTokens ≤ 0 then
        ⟨none, errorResult "Token limit exceeded: prompt too large for available token limit"⟩
      else
        let truncatedContent := ServiceUtils.truncateToTokenLimit content availableTokens
        match env.wire truncatedContent with
        | .error m => ⟨some truncatedContent, errorResult m⟩
        | .ok reply => ⟨some truncatedContent, handleReply content truncatedContent reply⟩

/-- `AzureOpenAIService.analyzePlayground`, observed at the wire
boundary: the same pipeline but with no thumbnail step and, in
particular, no check of `availableTokens` before truncating and calling
the wire. -/
def analyzePlayground (cfg : Config) (env : Env) (content : String) : Trace :=
  if !env.clientOk then ⟨none, errorResult "AzureOpenAI client not initialized - missing API key"⟩
  else
    let availableTokens := cfg.tokenLimit - (env.totalPromptTokens + cfg.responseTokens)
    let truncatedContent := ServiceUtils.truncateToTokenLimit content availableTokens
    match env.wire truncatedContent with
    | .error m => ⟨some truncatedContent, errorResult m⟩
    | .ok reply => ⟨some truncatedContent, handleReply content truncatedContent reply⟩

/-- `AzureOpenAIService._validateAndTruncateExternalApiData` on the
already serialised data string: measure with `calculateTokens` against
the 500-token sub-budget and truncate with `truncateToTokenLimit` when
over. -/
def validateAndTruncateExternalApiData (dataString : String) (maxTokens : Nat) : String :=
  if ServiceUtils.calculateTokens dataString > maxTokens then
    ServiceUtils.truncateToTokenLimit dataString (maxTokens : Int)
  else dataString

/-- The environment of an Azure status probe: client availability, the
configured deployment name and the probe reply
(`choices[0].message.content`, `none` when absent). -/
structure StatusEnv where
  clientOk : Bool
  deploymentName : String
  wire : Except String (Option String)

/-- The first, shadowed definition of `AzureOpenAIService.checkStatus`
(the source declares the method twice; under JavaScript class semantics
the second wins).  This variant reports the error message. -/
def checkStatusFirst (env : StatusEnv) : StatusResult :=
  if !env.clientOk then
    ⟨"error", none, some "AzureOpenAI client not initialized - missing API key"⟩
  else
    match env.wire with
    | .error m => ⟨"error", none, some m⟩
    | .ok none => ⟨"error", none, some "Invalid API response structure"⟩
    | .ok (some c) =>
      if c == "" then ⟨"error", none, some "Invalid API response structure"⟩
      else ⟨"ok", some env.deploymentName, none⟩

/-- The second, active definition of `AzureOpenAIService.checkStatus`:
a missing content returns `status error` directly, and the catch-all
returns `status error` without a message. -/
def checkStatus (env : StatusEnv) : StatusResult :=
  if !env.clientOk then ⟨"error", none, none⟩
  else
    match env.wire with
    | .error _ => ⟨"error", none, none⟩
    | .ok none => ⟨"error", none, none⟩
    | .ok (some c) =>
      if c == "" then ⟨"error", none, none⟩
      else ⟨"ok", some env.deploymentName, none⟩

end AzureOpenAIService

namespace OllamaService

/-- Replace the first occurrence of `pat` (as JavaScript
`String.prototype.replace` with a string pattern does). -/
def replaceOnce (pat repl : List Char) : Nat → List Char → List Char
  | 0, l => l
  | fuel + 1, l =>
    match l with
    | [] => []
    | c :: rest =>
      if pat.isPrefixOf l then repl ++ l.drop pat.length
      else c :: replaceOnce pat repl fuel rest

/-- The `%CUSTOMFIELDS%` placeholder substitution applied to the
must-have prompt and to the system-prompt template. -/
def replaceCustomFields (template customFieldsStr : String) : String :=
  String.mk (replaceOnce "%CUSTOMFIELDS%".data customFieldsStr.data
    (template.length + 1) template.data)

/-- The configuration read by the Ollama analysis paths.
`customFieldsStr` is the custom-fields template string that
`_generateCustomFieldsTemplate` derives from the `CUSTOM_FIELDS`
environment variable; the three mode flags model the `yea or no`
configuration string comparisons. -/
structure Config where
  contentMaxLength : Option Nat
  tokenLimit : Nat
  useExistingData : Bool
  restrictToExistingTags : Bool
  restrictToExistingCorrespondents : Bool
  systemPromptEnv : String
  mustHavePrompt : String
  specialPromptPreDefinedTags : String
  usePromptTags : Bool
  customFieldsStr : String

/-- JavaScript string coercion of a `Promise` object, as produced when a
template literal interpolates a promise that was never awaited. -/
def promiseString : String := "[object Promise]"

/-- The external-data section appended to the system prompt inside
`_buildPrompt`.  The source invokes the async
`_validateAndTruncateExternalApiData` WITHOUT `await` from the
synchronous `_buildPrompt`, so the value interpolated into the template
literal is a pending `Promise` — always truthy, never throwing — and the
section text becomes the promise's string coercion rather than the
validated data. -/
def externalApiSection (externalApiData : Option String) : String :=
  match externalApiData with
  | some _ => "\n\nAdditional context from external API:\n" ++ promiseString
  | none => ""

/-- `OllamaService._buildPrompt`: assemble the system prompt from the
configuration mode (taxonomy block or plain), substitute the
custom-fields template, run the restriction processor
(`RestrictionPromptService`, repo code not under `src/`, taken as an
arbitrary function `restrict`), append the external-data section, apply
the predefined-tags override, and finish with the stringified content. -/
def buildPrompt (cfg : Config) (restrict : String → String) (content : String)
    (existingTags existingCorrespondent existingDocumentTypes : List String)
    (externalApiData : Option String) : String :=
  let mustHave := replaceCustomFields cfg.mustHavePrompt cfg.customFieldsStr
  let systemPrompt :=
    if cfg.useExistingData && !cfg.restrictToExistingTags &&
        !cfg.restrictToExistingCorrespondents then
      "\n            Pre-existing tags: " ++ String.intercalate ", " existingTags ++
        "\n\n\n            Pre-existing correspondents: " ++
        String.intercalate ", " (existingCorrespondent.filter (fun s => s ≠ "")) ++
        "\n\n\n            Pre-existing document types: " ++
        String.intercalate ", " (existingDocumentTypes.filter (fun s => s ≠ "")) ++
        "\n\n\n            " ++ cfg.systemPromptEnv ++ "\n\n" ++ mustHave
    else cfg.systemPromptEnv ++ "\n\n" ++ mustHave
  let systemPrompt := restrict systemPrompt
  let systemPrompt := systemPrompt ++ externalApiSection externalApiData
  let systemPrompt :=
    if cfg.usePromptTags then
      "\n            Take these tags and try to match one or more to the document content.\n\n\n            "
        ++ cfg.specialPromptPreDefinedTags
    else systemPrompt
  systemPrompt ++ "\n        " ++ jsonStringifyString content ++ "\n        "

/-- The fixed system-prompt template of `_generateSystemPrompt`. -/
def systemPromptTemplate : String :=
  "\n            You are a document analyzer. Your task is to analyze documents and extract relevant information. You do not ask back questions. \n            YOU MUSTNOT: Ask for additional information or clarification, or ask questions about the document, or ask for additional context.\n            YOU MUSTNOT: Return a response without the desired JSON format.\n            YOU MUST: Return the result EXCLUSIVELY as a JSON object. The Tags, Title and Document_Type MUST be in the language that is used in the document.:\n            IMPORTANT: The custom_fields are optional and can be left out if not needed, only try to fill out the values if you find a matching information in the document.\n            Do not change the value of field_name, only fill out the values. If the field is about money only add the number without currency and always use a . for decimal places.\n            \x7b\n                \"title\": \"xxxxx\",\n                \"correspondent\": \"xxxxxxxx\",\n                \"tags\": [\"Tag1\", \"Tag2\", \"Tag3\", \"Tag4\"],\n                \"document_type\": \"Invoice/Contract/...\",\n                \"document_date\": \"YYYY-MM-DD\",\n                \"language\": \"en/de/es/...\",\n                %CUSTOMFIELDS%\n            \x7d\n            ALWAYS USE THE INFORMATION TO FILL OUT THE JSON OBJECT. DO NOT ASK BACK QUESTIONS.\n        "

/-- `OllamaService._generateSystemPrompt`. -/
def generateSystemPrompt (customFieldsStr : String) : String :=
  replaceCustomFields systemPromptTemplate customFieldsStr

/-- The fixed playground system prompt of
`_generatePlaygroundSystemPrompt`. -/
def playgroundSystemPrompt : String :=
  "\n            You are a document analyzer. Your task is to analyze documents and extract relevant information. You do not ask back questions. \n            YOU MUSTNOT: Ask for additional information or clarification, or ask questions about the document, or ask for additional context.\n            YOU MUSTNOT: Return a response without the desired JSON format.\n            YOU MUST: Analyze the document content and extract the following information into this structured JSON format and only this format!:         \x7b\n            \"title\": \"xxxxx\",\n            \"correspondent\": \"xxxxxxxx\",\n            \"tags\": [\"Tag1\", \"Tag2\", \"Tag3\", \"Tag4\"],\n            \"document_type\": \"Invoice/Contract/...\",\n            \"document_date\": \"YYYY-MM-DD\",\n            \"language\": \"en/de/es/...\"\n            \x7d\n            ALWAYS USE THE INFORMATION TO FILL OUT THE JSON OBJECT. DO NOT ASK BACK QUESTIONS.\n        "

/-- JavaScript `typeof v === 'object'` on a parsed JSON value (`null`
included, arrays included). -/
def isObjectLike : JsonValue → Bool
  | .obj _ => true
  | .arr _ => true
  | .null => true
  | _ => false

/-- `OllamaService._processOllamaResponse` on the `response` field of the
reply body (`none` models an absent field): a truthy object is extracted
structurally; a truthy non-object goes through `_parseResponse` (whose
outer catch turns the `TypeError` raised on a non-string into the
canonical empty result); otherwise the `No response data` error is
thrown. -/
def processOllamaResponse (respField : Option JsonValue) : Except String ParsedDocument :=
  match respField with
  | some v =>
    if jsTruthy v && isObjectLike v then .ok (documentFromJson v)
    else if jsTruthy v then
      .ok (match v with
           | .str s => parseResponse s
           | _ => emptyDocument)
    else .error "No response data from Ollama API"
  | none => .error "No response data from Ollama API"

/-- The per-request environment of an Ollama analysis call: thumbnail
I/O, the restriction processor (repo code not under `src/`, arbitrary),
and the wire call as a function of the prompt, system prompt and
context-window size actually sent; `.error` covers both a transport
throw and the falsy-body throw inside `_callOllamaAPI`. -/
structure Env where
  thumbnail : Except String Unit
  restrict : String → String
  wire : String → String → Nat → Except String (Option JsonValue)

/-- The analysis result record of the Ollama paths; `truncated := none`
models the error object literal, which has no `truncated` key. -/
structure AnalysisResult where
  document : ParsedDocument
  metrics : Option UsageMetrics
  truncated : Option Bool
  error : Option String

/-- The record returned by the catch-all of both Ollama analysis paths. -/
def errorResult (msg : String) : AnalysisResult :=
  { document := emptyDocument, metrics := none, truncated := none, error := some msg }

/-- A run of an Ollama analysis call together with the prompt it
transmitted and the context-window size it requested (`none` when the
wire call was never reached). -/
structure Trace where
  sentPrompt : Option String
  numCtx : Option Nat
  result : AnalysisResult

/-- `OllamaService.analyzeDocument`, observed at the wire boundary:
character-cap truncation, thumbnail caching, prompt assembly (custom
prompt replaces the generated one), context-window computation, wire
call and response processing; every internal failure is mapped by the
catch-all to `errorResult`, and every success reports
`truncated := false` and zero-filled metrics. -/
def analyzeDocument (cfg : Config) (env : Env) (content : String)
    (existingTags existingCorrespondent existingDocumentTypes : List String)
    (customPrompt : Option String) (externalApiData : Option String) : Trace :=
  let content := truncateContent cfg.contentMaxLength content
  match env.thumbnail with
  | .error m => ⟨none, none, errorResult m⟩
  | .ok _ =>
    let prompt :=
      match customPrompt with
      | none =>
        buildPrompt cfg env.restrict content existingTags existingCorrespondent
          existingDocumentTypes externalApiData
      | some cp =>
        cp ++ "\n\n" ++ replaceCustomFields cfg.mustHavePrompt cfg.customFieldsStr ++
          "\n\n" ++ jsonStringifyString content
    let systemPrompt := generateSystemPrompt cfg.customFieldsStr
    let promptTokenCount := calculatePromptTokenCount prompt
    let numCtx := calculateNumCtx promptTokenCount 1024 cfg.tokenLimit
    match env.wire prompt systemPrompt numCtx with
    | .error m => ⟨some prompt, some numCtx, errorResult m⟩
    | .ok respField =>
      match processOllamaResponse respField with
      | .error m => ⟨some prompt, some numCtx, errorResult m⟩
      | .ok parsed =>
        ⟨some prompt, some numCtx,
          { document := parsed
            metrics := some ⟨0, 0, 0⟩
            truncated := some false
            error := none }⟩

/-- `OllamaService.analyzePlayground`, observed at the wire boundary:
the context window is computed from the user prompt alone, and the raw
content is stringified and appended to the prompt with no truncation
step of any kind; every success reports `truncated := false`. -/
def analyzePlayground (cfg : Config) (env : Env) (content : String)
    (prompt : String) : Trace :=
  let promptTokenCount := ServiceUtils.calculateTokens prompt
  let numCtx := calculateNumCtx promptTokenCount 1024 cfg.tokenLimit
  let wirePrompt := prompt ++ "\n\n" ++ jsonStringifyString content
  match env.wire wirePrompt playgroundSystemPrompt numCtx with
  | .error m => ⟨some wirePrompt, some numCtx, errorResult m⟩
  | .ok respField =>
    match processOllamaResponse respField with
    | .error m => ⟨some wirePrompt, some numCtx, errorResult m⟩
    | .ok parsed =>
      ⟨some wirePrompt, some numCtx,
        { document := parsed
          metrics := some ⟨0, 0, 0⟩
          truncated := some false
          error := none }⟩

/-- The reply of the Ollama health probe `GET api-ps`: HTTP status and
the model names listed in the body (`none` when the body has no array of
models). -/
structure PsReply where
  status : Nat
  models : Option (List String)

/-- `OllamaService.checkStatus`: a thrown probe or a non-200 status
yields `status error`; a 200 reply yields `status ok` with the first
listed model name (or `null` when none). -/
def checkStatus (probe : Except String PsReply) : StatusResult :=
  match probe with
  | .error _ => ⟨"error", none, none⟩
  | .ok r =>
    if r.status == 200 then
      ⟨"ok",
        (match r.models with
         | some (m :: _) => some m
         | _ => none), none⟩
    else ⟨"error", none, none⟩

end OllamaService

namespace RagService

/-- A retrieval-service source record as far as `askQuestion` inspects
it; `title := some ""` models a present-but-empty (falsy) title. -/
structure Source where
  doc_id : Option Nat
  title : Option String
deriving DecidableEq

/-- A tag record of the externally owned tag cache. -/
structure PaperlessTag where
  id : Nat
  name : String

/-- A document-repository metadata record as far as `askQuestion`
inspects it. -/
structure PaperlessDocument where
  title : Option String
  created_date : Option String
  created : Option String
  correspondent_name : Option String
  correspondent : Option String
  tags : Option (List Nat)
  content : Option String

/-- The per-question environment of `askQuestion`: the outcome of the
`POST context` retrieval call, of the tag-cache preload, the tag cache
itself, the per-document metadata and content fetches, and the
answer-generation call of the active provider adapter. -/
structure Env where
  retrieval : Except String (String × List Source)
  ensureTagCache : Except String Unit
  tagCache : List PaperlessTag
  getDocument : Nat → Except String PaperlessDocument
  getDocumentContent : Nat → Except String String
  generateText : String → Except String String

/-- JavaScript truthiness of a possibly-undefined string. -/
def truthyStr : Option String → Option String
  | some s => if s == "" then none else some s
  | none => none

/-- JavaScript `a || b` on possibly-undefined strings: the raw second
operand when the first is falsy. -/
def jsOr2 (a b : Option String) : Option String :=
  match truthyStr a with
  | some s => some s
  | none => b

/-- Render a possibly-undefined string inside a template literal. -/
def jsTemplateStr : Option String → String
  | some s => s
  | none => "undefined"

/-- The tag-name resolution of `askQuestion`: map each tag id through
the cache and keep only truthy names (the source maps to `name or null`
and then filters on truthiness). -/
def resolveTagNames (cache : List PaperlessTag) (ids : List Nat) : List String :=
  ids.filterMap (fun tid =>
    match cache.find? (fun t => t.id == tid) with
    | some t => if t.name == "" then none else some t.name
    | none => none)

/-- The ephemeral reference-document record built for a source tagged
with the reference tag. -/
structure ReferenceDocument where
  id : Nat
  title : String
  created : Option String
  correspondent : Option String
  tags : List String
  content : String
deriving DecidableEq

/-- The reference-document construction of `askQuestion`:
`title or source title or Unknown Title`, `created_date or created`,
`correspondent_name or correspondent`, the resolved tag names, and the
first 500 characters of the content followed by an ellipsis (an empty
excerpt for falsy content). -/
def mkReferenceDocument (src : Source) (docId : Nat) (doc : PaperlessDocument)
    (tagNames : List String) : ReferenceDocument :=
  { id := docId
    title :=
      match truthyStr doc.title with
      | some t => t
      | none =>
        match truthyStr src.title with
        | some t => t
        | none => "Unknown Title"
    created := jsOr2 doc.created_date doc.created
    correspondent := jsOr2 doc.correspondent_name doc.correspondent
    tags := tagNames
    content :=
      match doc.content with
      | some c => if c == "" then "" else substringTo c 500 ++ "..."
      | none => "" }

/-- The label `source title, or Document id` used in the source-info and
content blocks. -/
def sourceLabel (src : Source) (docId : Nat) : String :=
  match truthyStr src.title with
  | some t => t
  | none => "Document " ++ toString docId

/-- One line of the source-info block. -/
def sourceInfoLine (src : Source) (docId : Nat) (tagNames : List String) : String :=
  "Document: " ++ sourceLabel src docId ++ ", Tags: " ++
    String.intercalate ", " tagNames ++ "\n"

/-- The accumulator of the per-source metadata loop (step 2 of
`askQuestion`). -/
structure MetaAcc where
  hasReferenceTag : Bool
  sourceInfo : String
  referenceDocuments : List ReferenceDocument

/-- One iteration of the per-source metadata loop: skip sources without
a document id, swallow a failed metadata fetch, skip documents without a
tag array; otherwise resolve the tag names, record a reference document
and set the citation flag when the literal reference tag is present, and
always append the source-info line. -/
def metaStep (env : Env) (acc : MetaAcc) (src : Source) : MetaAcc :=
  match src.doc_id with
  | none => acc
  | some docId =>
    match env.getDocument docId with
    | .error _ => acc
    | .ok doc =>
      match doc.tags with
      | none => acc
      | some ids =>
        let tagNames := resolveTagNames env.tagCache ids
        let acc' :=
          if "Referência" ∈ tagNames then
            { acc with
                hasReferenceTag := true
                referenceDocuments :=
                  acc.referenceDocuments ++ [mkReferenceDocument src docId doc tagNames] }
          else acc
        { acc' with sourceInfo := acc'.sourceInfo ++ sourceInfoLine src docId tagNames }

/-- Step 2 of `askQuestion`: the metadata loop over all sources. -/
def collectSourceMeta (env : Env) (sources : List Source) : MetaAcc :=
  sources.foldl (metaStep env) ⟨false, "", []⟩

/-- The reference-document contribution of one source: defined exactly
when the source has a document id, its metadata fetch succeeds, it
carries a tag array, and the resolved tag names contain the literal
reference tag. -/
def referenceDocumentOf (env : Env) (src : Source) : Option ReferenceDocument :=
  match src.doc_id with
  | none => none
  | some docId =>
    match env.getDocument docId with
    | .error _ => none
    | .ok doc =>
      match doc.tags with
      | none => none
      | some ids =>
        let tagNames := resolveTagNames env.tagCache ids
        if "Referência" ∈ tagNames then
          some (mkReferenceDocument src docId doc tagNames)
        else none

/-- Step 3 of `askQuestion`, one source: the full-content contribution,
empty for a missing id or a failed fetch. -/
def fullDocContent (env : Env) (src : Source) : String :=
  match src.doc_id with
  | none => ""
  | some docId =>
    match env.getDocumentContent docId with
    | .error _ => ""
    | .ok c => "Full document content for " ++ sourceLabel src docId ++ ":\n" ++ c

/-- Step 3 of `askQuestion`: the enriched context (unchanged when there
are no sources). -/
def enhancedContextOf (env : Env) (context : String) (sources : List Source) : String :=
  if sources.isEmpty then context
  else
    context ++ "\n\n" ++
      String.intercalate "\n\n" ((sources.map (fullDocContent env)).filter (fun s => s ≠ ""))

/-- The fixed citation instruction used when citation mode is active. -/
def citationInstructionBlock : String :=
  "- Since some documents have the \"Referência\" tag, include citations to the sources in your answer using the format <citation>AUTHORS. Title. Journal/Publication. v.Volume, p.Pages, Year.</citation>\n        Example: <citation>MADUREIRA, F., COLLEGA, D. G., RODRIGUES, H. F., OLIVEIRA, T. A. C., FREUDENHEIM, A. M. Validação de um Instrumento para Avaliação Qualitativa do Nado \"Crawl\". Revista Brasileira de Educação Física e Esporte. v.22, p.273-284, 2008.</citation>\n        Use the document title and available metadata to format the citation appropriately."

/-- The fixed instruction used when citation mode is inactive. -/
def noReferenceInstruction : String :=
  "- Do not mention document numbers or source references, answer as if it were a natural conversation"

/-- The rendering of one reference document inside the metadata block. -/
def renderReferenceDocument (d : ReferenceDocument) : String :=
  "ID: " ++ toString d.id ++ "\nTitle: " ++ d.title ++ "\nCreated: " ++
    jsTemplateStr d.created ++ "\nCorrespondent: " ++ jsTemplateStr d.correspondent ++
    "\nTags: " ++ String.intercalate ", " d.tags ++ "\nExcerpt: " ++ d.content

/-- The reference-documents metadata block (empty when citation mode is
inactive). -/
def referenceInfoOf (meta : MetaAcc) : String :=
  if meta.hasReferenceTag && !meta.referenceDocuments.isEmpty then
    "\n\nReference Documents Metadata:\n" ++
      String.intercalate "\n\n" (meta.referenceDocuments.map renderReferenceDocument)
  else ""

/-- The citation-instruction selection of step 4. -/
def citationInstructionOf (meta : MetaAcc) : String :=
  if meta.hasReferenceTag && !meta.referenceDocuments.isEmpty then citationInstructionBlock
  else noReferenceInstruction

/-- The final prompt up to (excluding) the citation instruction. -/
def promptHead (question enhancedContext sourceInfo referenceInfo : String) : String :=
  "\n        You are a helpful assistant that answers questions about documents.\n\n        Answer the following question precisely, based on the provided documents:\n\n        Question: " ++
    question ++
    "\n\n        Context from relevant documents:\n        " ++
    enhancedContext ++
    "\n\n        Source information:\n        " ++
    sourceInfo ++ referenceInfo ++
    "\n\n        Important instructions:\n        - Use ONLY information from the provided documents\n        - If the answer is not contained in the documents, respond: \"This information is not contained in the documents.\" (in the same language as the question)\n        - Avoid assumptions or speculation beyond the given context\n        - Answer in the same language as the question was asked\n        - Before providing your final answer, double-check that all information comes directly from the documents and is accurate\n        - If you\x27re unsure about any part of the answer, either omit it or clearly state the uncertainty\n        "

/-- Step 4 of `askQuestion`: the final prompt. -/
def composePrompt (question enhancedContext : String) (meta : MetaAcc) : String :=
  promptHead question enhancedContext meta.sourceInfo (referenceInfoOf meta) ++
    citationInstructionOf meta ++ "\n        "

/-- The generic message thrown to the caller by the outer catch. -/
def genericErrorMessage : String :=
  "An error occurred while processing your question. Please try again later."

/-- The fixed apology substituted when answer generation fails. -/
def apologyAnswer : String :=
  "An error occurred while generating an answer. Please try again later."

/-- Step 5 of `askQuestion`: generate the answer, substituting the fixed
apology when generation fails. -/
def answerOf (env : Env) (prompt : String) : String :=
  match env.generateText prompt with
  | .ok a => a
  | .error _ => apologyAnswer

/-- The body of `askQuestion` before the outer catch: retrieval, guarded
tag-cache preload, the two best-effort enrichment steps, prompt
composition and generation.  The only operations whose failures are not
swallowed locally are the retrieval call and the tag-cache preload. -/
def askQuestionInner (env : Env) (question : String) :
    Except String (String × List Source) :=
  match env.retrieval with
  | .error m => .error m
  | .ok (context, sources) =>
    match (if sources.isEmpty then Except.ok () else env.ensureTagCache) with
    | .error m => .error m
    | .ok _ =>
      let meta :=
        if sources.isEmpty then (⟨false, "", []⟩ : MetaAcc)
        else collectSourceMeta env sources
      let enhancedContext := enhancedContextOf env context sources
      let prompt := composePrompt question enhancedContext meta
      .ok (answerOf env prompt, sources)

/-- `RagService.askQuestion`: the body under the outer catch, which maps
every escaped failure to the single generic error. -/
def askQuestion (env : Env) (question : String) :
    Except String (String × List Source) :=
  match askQuestionInner env question with
  | .ok r => .ok r
  | .error _ => .error genericErrorMessage

end RagService

section Lemmas

lemma substringTo_length (s : String) (n : Nat) :
    (substringTo s n).length = min n s.length := by
  cases s with
  | mk data => exact List.length_take n data

lemma substringTo_isPrefix (s : String) (n : Nat) :
    (substringTo s n).data <+: s.data := by
  simpa [substringTo] using List.take_prefix n s.data

lemma substringTo_idem (s : String) (n : Nat) :
    substringTo (substringTo s n) n = substringTo s n := by
  cases s with
  | mk data => simp [substringTo, List.take_take]

end Lemmas

/-- C7: for every text and non-negative token limit `n`, the Ollama
external-data truncation returns a prefix of the text whose ratio
token estimate is at most `n`; it is idempotent and leaves a text
already within the limit unchanged; and the character-cap
`_truncateContent` is likewise a prefix-producing idempotent. -/
theorem c7_truncate_contract (s : String) (n : Nat) :
    (OllamaService.validateAndTruncateExternalApiData s n).data <+: s.data
    ∧ OllamaService.calculatePromptTokenCount
        (OllamaService.validateAndTruncateExternalApiData s n) ≤ n
    ∧ OllamaService.validateAndTruncateExternalApiData
        (OllamaService.validateAndTruncateExternalApiData s n) n =
        OllamaService.validateAndTruncateExternalApiData s n
    ∧ (OllamaService.calculatePromptTokenCount s ≤ n →
        OllamaService.validateAndTruncateExternalApiData s n = s)
    ∧ (OllamaService.truncateContent (some n) s).data <+: s.data
    ∧ OllamaService.truncateContent (some n) (OllamaService.truncateContent (some n) s) =
        OllamaService.truncateContent (some n) s := by
  by_cases h : (s.length + 3) / 4 > n
  · have hlen : (substringTo s (n * 4)).length ≤ n * 4 := by
      have := substringTo_length s (n * 4); omega
    have hno : ¬ ((substringTo s (n * 4)).length + 3) / 4 > n := by omega
    refine ⟨?_, ?_, ?_, ?_, ?_, ?_⟩
    · simp only [OllamaService.validateAndTruncateExternalApiData, if_pos h]
      exact substringTo_isPrefix s (n * 4)
    · simp only [OllamaService.validateAndTruncateExternalApiData,
        OllamaService.calculatePromptTokenCount, if_pos h]
      omega
    · simp only [OllamaService.validateAndTruncateExternalApiData, if_pos h, if_neg hno]
    · intro hle
      simp only [OllamaService.calculatePromptTokenCount] at hle
      omega
    · exact substringTo_isPrefix s n
    · exact substringTo_idem s n
  · refine ⟨?_, ?_, ?_, ?_, ?_, ?_⟩
    · simp only [OllamaService.validateAndTruncateExternalApiData, if_neg h]
      exact List.prefix_refl _
    · simp only [OllamaService.validateAndTruncateExternalApiData,
        OllamaService.calculatePromptTokenCount, if_neg h]
      omega
    · simp only [OllamaService.validateAndTruncateExternalApiData, if_neg h]
    · intro _
      simp only [OllamaService.validateAndTruncateExternalApiData, if_neg h]
    · exact substringTo_isPrefix s n
    · exact substringTo_idem s n

/-- C7 witness: a text of eight characters (two estimated tokens) is
within a two-token limit and is returned unchanged. -/
theorem c7_witness :
    OllamaService.calculatePromptTokenCount "abcdefgh" ≤ 2
    ∧ OllamaService.validateAndTruncateExternalApiData "abcdefgh" 2 = "abcdefgh" :=
  ⟨by decide, (c7_truncate_contract "abcdefgh" 2).2.2.2.1 (by decide)⟩

/-- C1 (amended): on the structured-output backend, `analyzeDocument`
aborts when the reserved tokens reach `maxTokens`: the budget check
fails with the token-limit error and no wire call is made; the original
claim fails for `analyzePlayground`, which performs no such check (see
the counterexample). -/
theorem c1_analyzeDocument_budget_abort (cfg : AzureOpenAIService.Config)
    (env : AzureOpenAIService.Env) (content : String)
    (hc : env.clientOk = true) (ht : env.thumbnail = .ok ())
    (hb : cfg.tokenLimit ≤ env.totalPromptTokens + cfg.responseTokens) :
    (AzureOpenAIService.analyzeDocument cfg env content).sent = none
    ∧ (AzureOpenAIService.analyzeDocument cfg env content).result.error =
        some "Token limit exceeded: prompt too large for available token limit"
    ∧ (AzureOpenAIService.analyzeDocument cfg env content).result.document =
        AzureOpenAIService.emptyDocumentJson := by
  have hle : cfg.tokenLimit - (env.totalPromptTokens + cfg.responseTokens) ≤ 0 := by omega
  simp only [AzureOpenAIService.analyzeDocument, hc, Bool.not_true, Bool.false_eq_true,
    if_false, ht]
  simp only [if_pos hle, AzureOpenAIService.errorResult]
  exact ⟨trivial, trivial, trivial⟩

/-- C1 counterexample: with prompt overhead 10 plus response reservation
10 against a token limit of 5 (so `availableTokens = -15 <= 0`),
`analyzePlayground` does not abort: it truncates the content against the
negative allowance and performs the wire call (transmitting the empty
prefix), refuting the claim that both analysis operations abort with no
content sent. -/
theorem c1_counterexample :
    (5 : Int) ≤ 10 + 10
    ∧ (AzureOpenAIService.analyzePlayground ⟨5, 10⟩
        ⟨true, .ok (), 10, fun _ => .error "network error"⟩ "hello").sent = some ""
    ∧ (AzureOpenAIService.analyzePlayground ⟨5, 10⟩
        ⟨true, .ok (), 10, fun _ => .error "network error"⟩ "hello").sent ≠ none :=
  ⟨by decide, by rfl, by
    rw [show (AzureOpenAIService.analyzePlayground ⟨5, 10⟩
      ⟨true, .ok (), 10, fun _ => .error "network error"⟩ "hello").sent = some "" from rfl]
    exact Option.some_ne_none _⟩

/-- C1 witness: a concrete run of `analyzeDocument` with reserved
tokens 20 against limit 5 aborts with the budget error and sends
nothing. -/
theorem c1_witness :
    (AzureOpenAIService.analyzeDocument ⟨5, 10⟩
        ⟨true, .ok (), 10, fun _ => .error "network error"⟩ "hello").sent = none
    ∧ (AzureOpenAIService.analyzeDocument ⟨5, 10⟩
        ⟨true, .ok (), 10, fun _ => .error "network error"⟩ "hello").result.error =
        some "Token limit exceeded: prompt too large for available token limit"
    ∧ (AzureOpenAIService.analyzeDocument ⟨5, 10⟩
        ⟨true, .ok (), 10, fun _ => .error "network error"⟩ "hello").result.document =
        AzureOpenAIService.emptyDocumentJson :=
  c1_analyzeDocument_budget_abort ⟨5, 10⟩
    ⟨true, .ok (), 10, fun _ => .error "network error"⟩ "hello" rfl rfl (by decide)

/-- C9: on the free-text variant the labelled external-context section
appended by `_buildPrompt` carries the string coercion of the unawaited
validation promise, not the validated data: for the external datum
`hello` the validator returns `hello` unchanged, yet the appended
section ends in `object Promise` (the properly awaited validation in
`analyzeDocument` is dead code for the prompt). -/
theorem c9_external_data_promise :
    OllamaService.externalApiSection (some "hello") =
      "\n\nAdditional context from external API:\n" ++ OllamaService.promiseString
    ∧ OllamaService.validateAndTruncateExternalApiData "hello" 500 = "hello"
    ∧ OllamaService.promiseString ≠ "hello" :=
  ⟨rfl, by rfl, by decide⟩

/-- C8: every `checkStatus` variant (the active Azure definition, the
shadowed first Azure definition, and the Ollama one) is a total function
of the probe outcome — it never throws — and always resolves to a record
whose status is `ok` (with the model reported) or `error`. -/
theorem c8_checkStatus_total :
    (∀ env : AzureOpenAIService.StatusEnv,
      ((AzureOpenAIService.checkStatus env).status = "ok"
          ∧ (AzureOpenAIService.checkStatus env).model = some env.deploymentName)
        ∨ (AzureOpenAIService.checkStatus env).status = "error")
    ∧ (∀ env : AzureOpenAIService.StatusEnv,
      ((AzureOpenAIService.checkStatusFirst env).status = "ok"
          ∧ (AzureOpenAIService.checkStatusFirst env).model = some env.deploymentName)
        ∨ (AzureOpenAIService.checkStatusFirst env).status = "error")
    ∧ (∀ probe : Except String OllamaService.PsReply,
      (OllamaService.checkStatus probe).status = "ok"
        ∨ (OllamaService.checkStatus probe).status = "error") := by
  refine ⟨?_, ?_, ?_⟩
  · intro env
    unfold AzureOpenAIService.checkStatus
    repeat' split
    all_goals simp
  · intro env
    unfold AzureOpenAIService.checkStatusFirst
    repeat' split
    all_goals simp
  · intro probe
    unfold OllamaService.checkStatus
    repeat' split
    all_goals simp

/-- The failure shape of the shared Azure reply handling: it yields
either a success record (`error` empty) or the canonical empty document
with empty metrics and a message. -/
lemma handleReply_shape (content t : String) (reply : AzureOpenAIService.WireReply) :
    (AzureOpenAIService.handleReply content t reply).error = none
    ∨ ((AzureOpenAIService.handleReply content t reply).document =
          AzureOpenAIService.emptyDocumentJson
        ∧ (AzureOpenAIService.handleReply content t reply).metrics = none
        ∧ (AzureOpenAIService.handleReply content t reply).error ≠ none) := by
  unfold AzureOpenAIService.handleReply
  repeat' split
  all_goals simp [AzureOpenAIService.errorResult]

/-- C4: on every adapter variant and every internal outcome (missing
client, thumbnail failure, budget error, wire error, invalid response
shape, unparseable JSON), the analysis entry points return a record
(never propagate an exception): either a success record with no error,
or the canonical empty document with `null` metrics and a non-null error
message. -/
theorem c4_failures_return_empty_record :
    (∀ (cfg : AzureOpenAIService.Config) (env : AzureOpenAIService.Env) (content : String),
      (AzureOpenAIService.analyzeDocument cfg env content).result.error = none
      ∨ ((AzureOpenAIService.analyzeDocument cfg env content).result.document =
            AzureOpenAIService.emptyDocumentJson
          ∧ (AzureOpenAIService.analyzeDocument cfg env content).result.metrics = none
          ∧ (AzureOpenAIService.analyzeDocument cfg env content).result.error ≠ none))
    ∧ (∀ (cfg : AzureOpenAIService.Config) (env : AzureOpenAIService.Env) (content : String),
      (AzureOpenAIService.analyzePlayground cfg env content).result.error = none
      ∨ ((AzureOpenAIService.analyzePlayground cfg env content).result.document =
            AzureOpenAIService.emptyDocumentJson
          ∧ (AzureOpenAIService.analyzePlayground cfg env content).result.metrics = none
          ∧ (AzureOpenAIService.analyzePlayground cfg env content).result.error ≠ none))
    ∧ (∀ (cfg : OllamaService.Config) (env : OllamaService.Env) (content : String)
        (t1 t2 t3 : List String) (cp ead : Option String),
      (OllamaService.analyzeDocument cfg env content t1 t2 t3 cp ead).result.error = none
      ∨ ((OllamaService.analyzeDocument cfg env content t1 t2 t3 cp ead).result.document =
            OllamaService.emptyDocument
          ∧ (OllamaService.analyzeDocument cfg env content t1 t2 t3 cp ead).result.metrics = none
          ∧ (OllamaService.analyzeDocument cfg env content t1 t2 t3 cp ead).result.error ≠ none))
    ∧ (∀ (cfg : OllamaService.Config) (env : OllamaService.Env) (content prompt : String),
      (OllamaService.analyzePlayground cfg env content prompt).result.error = none
      ∨ ((OllamaService.analyzePlayground cfg env content prompt).result.document =
            OllamaService.emptyDocument
          ∧ (OllamaService.analyzePlayground cfg env content prompt).result.metrics = none
          ∧ (OllamaService.analyzePlayground cfg env content prompt).result.error ≠ none)) := by
  refine ⟨?_, ?_, ?_, ?_⟩
  · intro cfg env content
    unfold AzureOpenAIService.analyzeDocument
    dsimp only
    repeat' split
    all_goals
      first
        | exact handleReply_shape _ _ _
        | simp [AzureOpenAIService.errorResult]
  · intro cfg env content
    unfold AzureOpenAIService.analyzePlayground
    dsimp only
    repeat' split
    all_goals
      first
        | exact handleReply_shape _ _ _
        | simp [AzureOpenAIService.errorResult]
  · intro cfg env content t1 t2 t3 cp ead
    unfold OllamaService.analyzeDocument
    dsimp only
    repeat' split
    all_goals simp [OllamaService.errorResult]
  · intro cfg env content prompt
    unfold OllamaService.analyzePlayground
    dsimp only
    repeat' split
    all_goals simp [OllamaService.errorResult]

/-- Every run of the Ollama `analyzeDocument` either reports
`truncated := false` or carries an error message. -/
lemma ollamaAnalyze_truncated_or_error (cfg : OllamaService.Config)
    (env : OllamaService.Env) (content : String) (t1 t2 t3 : List String)
    (cp ead : Option String) :
    (OllamaService.analyzeDocument cfg env content t1 t2 t3 cp ead).result.truncated =
        some false
    ∨ (OllamaService.analyzeDocument cfg env content t1 t2 t3 cp ead).result.error ≠ none := by
  unfold OllamaService.analyzeDocument
  dsimp only
  repeat' split
  all_goals simp [OllamaService.errorResult]

/-- C10: every successful result of the free-text adapter's
`analyzeDocument` reports `truncated := false` — the flag is a literal
in the success record and never reflects the character-cap truncation
applied to the content before the wire call (the witness exhibits a
successful run whose content was actually shortened). -/
theorem c10_truncated_flag_constant (cfg : OllamaService.Config)
    (env : OllamaService.Env) (content : String) (t1 t2 t3 : List String)
    (cp ead : Option String)
    (h : (OllamaService.analyzeDocument cfg env content t1 t2 t3 cp ead).result.error = none) :
    (OllamaService.analyzeDocument cfg env content t1 t2 t3 cp ead).result.truncated =
      some false :=
  (ollamaAnalyze_truncated_or_error cfg env content t1 t2 t3 cp ead).resolve_right
    (fun hne => hne h)

/-- C10 witness: with `CONTENT_MAX_LENGTH = 3` the six-character content
is genuinely shortened before the wire call, the run succeeds, and the
result still reports `truncated := false`. -/
theorem c10_witness :
    (OllamaService.truncateContent (some 3) "abcdef").length < "abcdef".length
    ∧ (OllamaService.analyzeDocument ⟨some 3, 100, false, false, false, "", "", "", false, ""⟩
        ⟨.ok (), id, fun _ _ _ => .ok (some (.obj []))⟩
        "abcdef" [] [] [] none none).result.truncated = some false :=
  ⟨by decide,
    c10_truncated_flag_constant ⟨some 3, 100, false, false, false, "", "", "", false, ""⟩
      ⟨.ok (), id, fun _ _ _ => .ok (some (.obj []))⟩
      "abcdef" [] [] [] none none (by rfl)⟩

/-- The spec-modelled truncation respects a positive allowance under the
same estimator. -/
lemma truncateToTokenLimit_tokens_le (text : String) (L : Int) (hL : 0 < L) :
    (ServiceUtils.calculateTokens (ServiceUtils.truncateToTokenLimit text L) : Int) ≤ L := by
  unfold ServiceUtils.truncateToTokenLimit
  split
  · have hlen : (substringTo text (4 * L).toNat).length ≤ (4 * L).toNat := by
      have := substringTo_length text (4 * L).toNat; omega
    unfold ServiceUtils.calculateTokens
    omega
  · rename_i h
    unfold ServiceUtils.calculateTokens at h ⊢
    omega

/-- C2 (amended): on the structured-output variant the user-message
content placed in the wire call is exactly the truncation of the input
against the computed available allowance, and in `analyzeDocument`
(where the positive-budget check has passed) its estimated token count
is within that allowance; on the free-text variant the only bound is the
optional character cap of `_truncateContent` — the playground path sends
the raw content with no truncation step at all (see the
counterexample). -/
theorem c2_sent_content_bounded :
    (∀ (cfg : AzureOpenAIService.Config) (env : AzureOpenAIService.Env) (content t : String),
      (AzureOpenAIService.analyzeDocument cfg env content).sent = some t →
      t = ServiceUtils.truncateToTokenLimit content
            (cfg.tokenLimit - (env.totalPromptTokens + cfg.responseTokens))
      ∧ (ServiceUtils.calculateTokens t : Int) ≤
          cfg.tokenLimit - (env.totalPromptTokens + cfg.responseTokens))
    ∧ (∀ (cfg : AzureOpenAIService.Config) (env : AzureOpenAIService.Env) (content t : String),
      (AzureOpenAIService.analyzePlayground cfg env content).sent = some t →
      t = ServiceUtils.truncateToTokenLimit content
            (cfg.tokenLimit - (env.totalPromptTokens + cfg.responseTokens)))
    ∧ (∀ (m : Nat) (s : String), (OllamaService.truncateContent (some m) s).length ≤ m) := by
  refine ⟨?_, ?_, ?_⟩
  · intro cfg env content t h
    unfold AzureOpenAIService.analyzeDocument at h
    dsimp only at h
    by_cases hc : env.clientOk
    · simp only [hc, Bool.not_true, Bool.false_eq_true, if_false] at h
      cases ht : env.thumbnail with
      | error m => rw [ht] at h; exact absurd h (by simp)
      | ok u =>
        rw [ht] at h
        by_cases hb : cfg.tokenLimit - (env.totalPromptTokens + cfg.responseTokens) ≤ 0
        · rw [if_pos hb] at h; exact absurd h (by simp)
        · rw [if_neg hb] at h
          have hL : 0 < cfg.tokenLimit - (env.totalPromptTokens + cfg.responseTokens) := by
            omega
          cases hw : env.wire (ServiceUtils.truncateToTokenLimit content
              (cfg.tokenLimit - (env.totalPromptTokens + cfg.responseTokens))) with
          | error m =>
            rw [hw] at h
            have ht' := Option.some.inj h
            exact ht' ▸ ⟨rfl, truncateToTokenLimit_tokens_le content _ hL⟩
          | ok reply =>
            rw [hw] at h
            have ht' := Option.some.inj h
            exact ht' ▸ ⟨rfl, truncateToTokenLimit_tokens_le content _ hL⟩
    · simp only [hc] at h
      exact absurd h (by simp)
  · intro cfg env content t h
    unfold AzureOpenAIService.analyzePlayground at h
    dsimp only at h
    by_cases hc : env.clientOk
    · simp only [hc, Bool.not_true, Bool.false_eq_true, if_false] at h
      cases hw : env.wire (ServiceUtils.truncateToTokenLimit content
          (cfg.tokenLimit - (env.totalPromptTokens + cfg.responseTokens))) with
      | error m =>
        rw [hw] at h
        exact (Option.some.inj h).symm
      | ok reply =>
        rw [hw] at h
        exact (Option.some.inj h).symm
    · simp only [hc] at h
      exact absurd h (by simp)
  · intro m s
    unfold OllamaService.truncateContent
    rw [substringTo_length]
    omega

/-- C2 counterexample: on the free-text playground path, with token
limit 10 the resolved context budget is 10 tokens, yet the prompt
transmitted carries the raw fifty-character content (estimated 14
tokens) — the content string placed in the wire call is the unbounded
input, not the result of any truncation against the budget. -/
theorem c2_counterexample :
    (OllamaService.analyzePlayground ⟨none, 10, false, false, false, "", "", "", false, ""⟩
        ⟨.ok (), id, fun _ _ _ => .error "network error"⟩
        "aaaaaaaaaaaaaaaaaaaaaaaaaaaaaaaaaaaaaaaaaaaaaaaaaa" "p").sentPrompt =
      some ("p" ++ "\n\n" ++
        jsonStringifyString "aaaaaaaaaaaaaaaaaaaaaaaaaaaaaaaaaaaaaaaaaaaaaaaaaa")
    ∧ (OllamaService.analyzePlayground ⟨none, 10, false, false, false, "", "", "", false, ""⟩
        ⟨.ok (), id, fun _ _ _ => .error "network error"⟩
        "aaaaaaaaaaaaaaaaaaaaaaaaaaaaaaaaaaaaaaaaaaaaaaaaaa" "p").numCtx = some 10
    ∧ OllamaService.calculatePromptTokenCount
        ("p" ++ "\n\n" ++
          jsonStringifyString "aaaaaaaaaaaaaaaaaaaaaaaaaaaaaaaaaaaaaaaaaaaaaaaaaa") = 14
    ∧ 10 < 14 :=
  ⟨by rfl, by rfl, by decide, by decide⟩

/-- C2 witness: a structured-output run with allowance 80 transmits the
truncation result (here the whole five-character content, two estimated
tokens, within the allowance). -/
theorem c2_witness :
    "hello" = ServiceUtils.truncateToTokenLimit "hello" ((100 : Int) - (10 + 10))
    ∧ (ServiceUtils.calculateTokens "hello" : Int) ≤ (100 : Int) - (10 + 10) :=
  c2_sent_content_bounded.1 ⟨100, 10⟩ ⟨true, .ok (), 10, fun _ => .error "e"⟩
    "hello" "hello" (by rfl)

/-- A successful `lastIdxOf` points at the sought character. -/
lemma lastIdxOf_mem (c : Char) (l : List Char) :
    ∀ k, OllamaService.lastIdxOf c l = some k → l.get? k = some c := by
  induction l with
  | nil => intro k h; simp [OllamaService.lastIdxOf] at h
  | cons x xs ih =>
    intro k h
    unfold OllamaService.lastIdxOf at h
    cases hL : OllamaService.lastIdxOf c xs with
    | some k' =>
      rw [hL] at h
      have hk := Option.some.inj h
      subst hk
      simpa using ih k' hL
    | none =>
      rw [hL] at h
      by_cases hx : x == c
      · rw [if_pos hx] at h
        have hk := Option.some.inj h
        subst hk
        simp [eq_of_beq hx]
      · rw [if_neg hx] at h
        exact absurd h (by simp)

/-- When no opening brace is followed by a closing brace, the greedy
regular expression of `_parseResponse` does not match. -/
lemma extractJsonSpan_eq_none (l : List Char)
    (h : ∀ i j, i < j → l.get? i = some '\x7b' → l.get? j ≠ some '\x7d') :
    OllamaService.extractJsonSpan l = none := by
  induction l with
  | nil => rfl
  | cons c rest ih =>
    unfold OllamaService.extractJsonSpan
    by_cases hc : c == '\x7b'
    · rw [if_pos hc]
      cases hL : OllamaService.lastIdxOf '\x7d' rest with
      | none => rfl
      | some k =>
        exfalso
        have hk := lastIdxOf_mem '\x7d' rest k hL
        have h0 : (c :: rest).get? 0 = some '\x7b' := by simp [eq_of_beq hc]
        have hj : (c :: rest).get? (k + 1) = some '\x7d' := by simpa using hk
        exact (h 0 (k + 1) (Nat.succ_pos k) h0) hj
    · rw [if_neg hc]
      apply ih
      intro i j hij hi
      have := h (i + 1) (j + 1) (by omega) (by simpa using hi)
      simpa using this

/-- C3 counterexample: on an input holding two brace spans, the source's
greedy regular expression extracts the span from the first opening brace
to the LAST closing brace — not the first balanced span the claim
describes — so the parse fails even after the repair pass and the code
returns the canonical empty result, while the claimed first-balanced
extraction would have recovered `tags A, correspondent X`. -/
theorem c3_counterexample :
    OllamaService.extractJsonSpan
        "\x7b\"tags\": [\"A\"], \"correspondent\": \"X\"\x7d \x7b\"a\": 1\x7d".data ≠
      firstBalancedSpan
        "\x7b\"tags\": [\"A\"], \"correspondent\": \"X\"\x7d \x7b\"a\": 1\x7d".data
    ∧ OllamaService.parseResponse
        "\x7b\"tags\": [\"A\"], \"correspondent\": \"X\"\x7d \x7b\"a\": 1\x7d" =
        OllamaService.emptyDocument
    ∧ jsonParse (String.mk ((firstBalancedSpan
        "\x7b\"tags\": [\"A\"], \"correspondent\": \"X\"\x7d \x7b\"a\": 1\x7d".data).getD [])) =
        some (.obj [("tags", .arr [.str "A"]), ("correspondent", .str "X")]) :=
  ⟨by decide, by rfl, by rfl⟩

/-- C3 (amended): the free-text normalizer extracts the greedy span from
the first opening brace to the last closing brace (not the first
balanced span); on parse failure it applies the bounded repair pass once
and re-parses once; the fenced input with a trailing comma and unquoted
keys normalizes to `tags A, correspondent X`; and an input with no
opening brace followed by a closing brace yields the canonical empty
result without raising. -/
theorem c3_parse_recovery :
    (∀ s : String,
      (∀ i j : Nat, i < j → s.data.get? i = some '\x7b' → s.data.get? j ≠ some '\x7d') →
      OllamaService.parseResponse s = OllamaService.emptyDocument)
    ∧ (OllamaService.parseResponse
        "```json\n\x7btags: [\"A\"], correspondent: \"X\",\x7d\n```").tags = [.str "A"]
    ∧ (OllamaService.parseResponse
        "```json\n\x7btags: [\"A\"], correspondent: \"X\",\x7d\n```").correspondent =
        some (.str "X") := by
  refine ⟨?_, by rfl, by rfl⟩
  intro s h
  unfold OllamaService.parseResponse
  rw [extractJsonSpan_eq_none s.data h]

/-- C3 witness: a braceless input yields the canonical empty result, and
the fenced repair example recovers its tags. -/
theorem c3_witness :
    OllamaService.parseResponse "no json here" = OllamaService.emptyDocument
    ∧ (OllamaService.parseResponse
        "```json\n\x7btags: [\"A\"], correspondent: \"X\",\x7d\n```").tags = [.str "A"] :=
  ⟨c3_parse_recovery.1 "no json here"
      (fun _ _ _ hi => absurd (List.get?_mem hi) (by decide)),
    c3_parse_recovery.2.1⟩

/-- A question environment whose retrieval succeeds with one source but
whose tag-cache preload fails; used to refute the claim that only the
retrieval step can fail the call. -/
def ragEnvCacheDown : RagService.Env :=
  { retrieval := .ok ("ctx", [⟨some 1, some "T"⟩])
    ensureTagCache := .error "cache down"
    tagCache := []
    getDocument := fun _ => .error "meta down"
    getDocumentContent := fun _ => .error "content down"
    generateText := fun _ => .ok "answer" }

/-- C5 counterexample: the retrieval step succeeded, yet `askQuestion`
fails with the generic error because the tag-cache preload (performed
before the per-source loop whenever sources are present) threw — the
call does not fail EXACTLY when retrieval fails. -/
theorem c5_counterexample :
    ragEnvCacheDown.retrieval = .ok ("ctx", [⟨some 1, some "T"⟩])
    ∧ RagService.askQuestion ragEnvCacheDown "q" = .error RagService.genericErrorMessage :=
  ⟨rfl, by rfl⟩

/-- C5 (amended): `askQuestion` fails — as one single generic error —
exactly when the retrieval step fails or when the tag-cache preload
fails with at least one source present; under any outcome of the
per-source metadata and content fetches the call returns normally with
the retrieved sources intact, and a failed answer generation is replaced
by the fixed apology string. -/
theorem c5_failure_boundary :
    (∀ (env : RagService.Env) (question e : String),
      env.retrieval = .error e →
      RagService.askQuestion env question = .error RagService.genericErrorMessage)
    ∧ (∀ (env : RagService.Env) (question context e : String)
        (sources : List RagService.Source),
      env.retrieval = .ok (context, sources) → sources.isEmpty = false →
      env.ensureTagCache = .error e →
      RagService.askQuestion env question = .error RagService.genericErrorMessage)
    ∧ (∀ (env : RagService.Env) (question context : String)
        (sources : List RagService.Source),
      env.retrieval = .ok (context, sources) →
      (sources.isEmpty = false → env.ensureTagCache = .ok ()) →
      ∃ ans, RagService.askQuestion env question = .ok (ans, sources)
        ∧ ((∃ e, env.generateText (RagService.composePrompt question
              (RagService.enhancedContextOf env context sources)
              (if sources.isEmpty then ⟨false, "", []⟩
               else RagService.collectSourceMeta env sources)) = .error e) →
            ans = RagService.apologyAnswer)) := by
  refine ⟨?_, ?_, ?_⟩
  · intro env question e h
    unfold RagService.askQuestion RagService.askQuestionInner
    rw [h]
  · intro env question context e sources hret hne hcache
    unfold RagService.askQuestion RagService.askQuestionInner
    rw [hret]
    simp only [hne, Bool.false_eq_true, if_false, hcache]
  · intro env question context sources hret hcache
    refine ⟨RagService.answerOf env (RagService.composePrompt question
      (RagService.enhancedContextOf env context sources)
      (if sources.isEmpty then ⟨false, "", []⟩
       else RagService.collectSourceMeta env sources)), ?_, ?_⟩
    · unfold RagService.askQuestion RagService.askQuestionInner
      rw [hret]
      cases hE : sources.isEmpty with
      | true => simp [hE]
      | false => simp [hE, hcache hE]
    · rintro ⟨e, he⟩
      unfold RagService.answerOf
      rw [he]

/-- C5 witness: with retrieval succeeding, the cache preload succeeding
and generation failing, the call returns normally with the retrieved
source list intact and the fixed apology as the answer; and a failed
retrieval yields the single generic error. -/
theorem c5_witness :
    (∃ ans, RagService.askQuestion
        ⟨.ok ("ctx", [⟨some 1, some "T"⟩]), .ok (), [], fun _ => .error "meta down",
          fun _ => .error "content down", fun _ => .error "gen down"⟩ "q" =
        .ok (ans, [⟨some 1, some "T"⟩]) ∧ ans = RagService.apologyAnswer)
    ∧ RagService.askQuestion
        ⟨.error "net down", .ok (), [], fun _ => .ok ⟨none, none, none, none, none, none, none⟩,
          fun _ => .ok "", fun _ => .ok "a"⟩ "q" =
        .error RagService.genericErrorMessage := by
  constructor
  · obtain ⟨ans, h1, h2⟩ := c5_failure_boundary.2.2
      ⟨.ok ("ctx", [⟨some 1, some "T"⟩]), .ok (), [], fun _ => .error "meta down",
        fun _ => .error "content down", fun _ => .error "gen down"⟩
      "q" "ctx" [⟨some 1, some "T"⟩] rfl (fun _ => rfl)
    exact ⟨ans, h1, h2 ⟨"gen down", rfl⟩⟩
  · exact c5_failure_boundary.1
      ⟨.error "net down", .ok (), [], fun _ => .ok ⟨none, none, none, none, none, none, none⟩,
        fun _ => .ok "", fun _ => .ok "a"⟩ "q" "net down" rfl

/-- The reference documents accumulated by the metadata loop are the
initial ones followed by the per-source contributions, in source order. -/
lemma collectSourceMeta_refs (env : RagService.Env) :
    ∀ (l : List RagService.Source) (acc : RagService.MetaAcc),
      (l.foldl (RagService.metaStep env) acc).referenceDocuments =
        acc.referenceDocuments ++ l.filterMap (RagService.referenceDocumentOf env) := by
  intro l
  induction l with
  | nil => intro acc; simp
  | cons x xs ih =>
    intro acc
    simp only [List.foldl_cons, List.filterMap_cons]
    rw [ih]
    unfold RagService.metaStep RagService.referenceDocumentOf
    cases hid : x.doc_id with
    | none => simp
    | some docId =>
      cases hdoc : env.getDocument docId with
      | error m => simp [hdoc]
      | ok doc =>
        cases htags : doc.tags with
        | none => simp [hdoc, htags]
        | some ids =>
          dsimp only
          by_cases href : "Referência" ∈ RagService.resolveTagNames env.tagCache ids
          · simp [hdoc, htags, href]
          · simp [hdoc, htags, href]

/-- The citation flag accumulated by the metadata loop is set exactly
when some source contributes a reference document. -/
lemma collectSourceMeta_flag (env : RagService.Env) :
    ∀ (l : List RagService.Source) (acc : RagService.MetaAcc),
      (l.foldl (RagService.metaStep env) acc).hasReferenceTag =
        (acc.hasReferenceTag || !(l.filterMap (RagService.referenceDocumentOf env)).isEmpty) := by
  intro l
  induction l with
  | nil => intro acc; simp
  | cons x xs ih =>
    intro acc
    simp only [List.foldl_cons, List.filterMap_cons]
    rw [ih]
    unfold RagService.metaStep RagService.referenceDocumentOf
    cases hid : x.doc_id with
    | none => simp
    | some docId =>
      cases hdoc : env.getDocument docId with
      | error m => simp [hdoc]
      | ok doc =>
        cases htags : doc.tags with
        | none => simp [hdoc, htags]
        | some ids =>
          dsimp only
          by_cases href : "Referência" ∈ RagService.resolveTagNames env.tagCache ids
          · simp [hdoc, htags, href]
          · simp [hdoc, htags, href]

/-- C6: a reference document is recorded exactly for the sources whose
resolved tag names contain the literal tag `Referência` (id resolved,
metadata fetched, tag array present); when at least one exists the final
prompt carries the citation-instruction block and a reference-metadata
block rendering exactly those documents, and when none exists it carries
the instruction not to mention document numbers or source references. -/
theorem c6_reference_citation (env : RagService.Env) (question context : String)
    (sources : List RagService.Source) :
    (RagService.collectSourceMeta env sources).referenceDocuments =
        sources.filterMap (RagService.referenceDocumentOf env)
    ∧ (sources.filterMap (RagService.referenceDocumentOf env) ≠ [] →
        RagService.composePrompt question context (RagService.collectSourceMeta env sources) =
          RagService.promptHead question context
              (RagService.collectSourceMeta env sources).sourceInfo
              ("\n\nReference Documents Metadata:\n" ++
                String.intercalate "\n\n"
                  ((sources.filterMap (RagService.referenceDocumentOf env)).map
                    RagService.renderReferenceDocument)) ++
            RagService.citationInstructionBlock ++ "\n        ")
    ∧ (sources.filterMap (RagService.referenceDocumentOf env) = [] →
        RagService.composePrompt question context (RagService.collectSourceMeta env sources) =
          RagService.promptHead question context
              (RagService.collectSourceMeta env sources).sourceInfo "" ++
            RagService.noReferenceInstruction ++ "\n        ") := by
  have hrefs : (RagService.collectSourceMeta env sources).referenceDocuments =
      sources.filterMap (RagService.referenceDocumentOf env) := by
    unfold RagService.collectSourceMeta
    rw [collectSourceMeta_refs]
    simp
  have hflag : (RagService.collectSourceMeta env sources).hasReferenceTag =
      !(sources.filterMap (RagService.referenceDocumentOf env)).isEmpty := by
    unfold RagService.collectSourceMeta
    rw [collectSourceMeta_flag]
    simp
  refine ⟨hrefs, ?_, ?_⟩
  · intro hne
    have hEm : (sources.filterMap (RagService.referenceDocumentOf env)).isEmpty = false := by
      simpa [List.isEmpty_iff] using hne
    unfold RagService.composePrompt RagService.referenceInfoOf RagService.citationInstructionOf
    rw [hflag, hrefs, hEm]
    simp
  · intro heq
    have hEm : (sources.filterMap (RagService.referenceDocumentOf env)).isEmpty = true := by
      simp [heq]
    unfold RagService.composePrompt RagService.referenceInfoOf RagService.citationInstructionOf
    rw [hflag, hrefs, hEm]
    simp

/-- A question environment with a two-tag cache in which document 1
carries the reference tag and document 2 does not. -/
def ragReferenceEnv : RagService.Env :=
  { retrieval := .error "unused"
    ensureTagCache := .ok ()
    tagCache := [⟨1, "Referência"⟩, ⟨2, "Fatura"⟩]
    getDocument := fun i =>
      if i == 1 then
        .ok ⟨some "Doc One", some "2020-01-01", none, some "Alice", none, some [1], some "corpo"⟩
      else
        .ok ⟨some "Doc Two", none, none, none, none, some [2], none⟩
    getDocumentContent := fun _ => .ok "full"
    generateText := fun _ => .ok "ans" }

/-- C6 witness: with one source tagged `Referência` and one not, the
final prompt is the head followed by the citation-instruction block, and
the reference-metadata block renders exactly the one contributing
document. -/
theorem c6_witness :
    RagService.composePrompt "q" "ctx"
        (RagService.collectSourceMeta ragReferenceEnv
          [⟨some 1, some "S1"⟩, ⟨some 2, some "S2"⟩]) =
      RagService.promptHead "q" "ctx"
          (RagService.collectSourceMeta ragReferenceEnv
            [⟨some 1, some "S1"⟩, ⟨some 2, some "S2"⟩]).sourceInfo
          ("\n\nReference Documents Metadata:\n" ++
            String.intercalate "\n\n"
              ((([⟨some 1, some "S1"⟩, ⟨some 2, some "S2"⟩] :
                    List RagService.Source).filterMap
                  (RagService.referenceDocumentOf ragReferenceEnv)).map
                RagService.renderReferenceDocument)) ++
        RagService.citationInstructionBlock ++ "\n        " :=
  (c6_reference_citation ragReferenceEnv "q" "ctx"
    [⟨some 1, some "S1"⟩, ⟨some 2, some "S2"⟩]).2.1 (by decide)

/-- C4 witness: a concrete uninitialised-client run returns the
empty-but-well-typed record with its error set. -/
theorem c4_witness :
    (AzureOpenAIService.analyzeDocument ⟨100, 10⟩
        ⟨false, .ok (), 0, fun _ => .error "e"⟩ "doc").result.error = none
    ∨ ((AzureOpenAIService.analyzeDocument ⟨100, 10⟩
          ⟨false, .ok (), 0, fun _ => .error "e"⟩ "doc").result.document =
            AzureOpenAIService.emptyDocumentJson
        ∧ (AzureOpenAIService.analyzeDocument ⟨100, 10⟩
            ⟨false, .ok (), 0, fun _ => .error "e"⟩ "doc").result.metrics = none
        ∧ (AzureOpenAIService.analyzeDocument ⟨100, 10⟩
            ⟨false, .ok (), 0, fun _ => .error "e"⟩ "doc").result.error ≠ none) :=
  c4_failures_return_empty_record.1 ⟨100, 10⟩ ⟨false, .ok (), 0, fun _ => .error "e"⟩ "doc"

/-- C8 witness: a thrown Ollama probe resolves to a status record rather
than propagating. -/
theorem c8_witness :
    (OllamaService.checkStatus (.error "down")).status = "ok"
    ∨ (OllamaService.checkStatus (.error "down")).status = "error" :=
  c8_checkStatus_total.2.2 (.error "down")
